import Mathlib

/-!
Shallow embedding of the core of the Reddit persona generator
(`utils.py`, `persona_generator.py`, `model_manager.py`,
`reddit_persona_generator.py`, `web_interface.py`).

Conventions used throughout:
* Python dict records produced by the scraper are embedded as structures
  (`RPost`, `RComment`); the scraper always populates every key, so the
  `.get(key, default)` reads in `utils.py` always hit a present key.
* Python float arithmetic on the small integer counts handled here is
  embedded as exact rational arithmetic.  Every comparison in the source
  has the shape `int_expr > int_expr * float_literal` or
  `quotient > float_literal` with numerators and denominators bounded by
  the sample sizes (at most a few hundred); over that range the IEEE
  double comparison agrees with the exact rational comparison, because
  the accumulated representation error (a few units in the last place,
  relative magnitude about 1e-16) is far smaller than the distance from
  any attainable quotient to the nearest tier boundary it does not lie
  on exactly, and products such as `5 * 1.2` or `20 * 0.15` round back
  to the exact boundary value.
* The Python runtime enumerates the `set` objects `found_positive` /
  `found_negative` in an order that depends on the process-wide string
  hash seed; `analyze_sentiment` therefore takes the enumeration as an
  explicit parameter `setEnum`, constrained only to return a permutation
  of the insertion-ordered list of distinct elements (`IsSetEnum`).
-/

/-- A fetched post record (the dict built in `reddit_scraper.scrape_user`;
only the fields read by the analysis engine are carried). -/
structure RPost where
  title : String
  subreddit : String
  score : Int
  deriving Repr, DecidableEq

/-- A fetched comment record. -/
structure RComment where
  body : String
  subreddit : String
  score : Int
  deriving Repr, DecidableEq

/-!
Structural character-list implementations of the string primitives the
source uses (`in`, `.strip()`, `.lower()`, `.split()`, `.endswith`,
`.split(sep)[-1]`), so that every definition evaluates by kernel reduction.
-/

/-- Is the first character list a prefix of the second? -/
def listPrefixOf : List Char → List Char → Bool
  | [], _ => true
  | _ :: _, [] => false
  | a :: as, b :: bs => a == b && listPrefixOf as bs

/-- Does the second character list contain the first as a contiguous
sublist? -/
def listContainsSub (sep : List Char) : List Char → Bool
  | [] => sep.isEmpty
  | h :: hs => listPrefixOf sep (h :: hs) || listContainsSub sep hs

/-- Python `pat in s` substring test. -/
def pyContains (s pat : String) : Bool := listContainsSub pat.data s.data

/-- Drop leading whitespace characters. -/
def dropLeadingWs : List Char → List Char
  | [] => []
  | c :: cs => if c.isWhitespace then dropLeadingWs cs else c :: cs

/-- Python `str.strip()` (whitespace at both ends). -/
def pyStrip (s : String) : String :=
  String.mk ((dropLeadingWs (dropLeadingWs s.data).reverse).reverse)

/-- Python `str.lower()` (ASCII content). -/
def pyLower (s : String) : String := String.mk (s.data.map Char.toLower)

/-- Python `str.endswith(suffix)`. -/
def pyEndsWith (s suffix : String) : Bool :=
  listPrefixOf suffix.data.reverse s.data.reverse

/-- The suffix after the last occurrence of `sep`, if `sep` occurs.  For a
separator with no self-overlap (true of every separator used here) this is
the last element of Python's `s.split(sep)`. -/
def afterLast (sep : List Char) : List Char → Option (List Char)
  | [] => if sep.isEmpty then some [] else none
  | h :: hs =>
    match afterLast sep hs with
    | some r => some r
    | none =>
      if listPrefixOf sep (h :: hs) then some (List.drop sep.length (h :: hs))
      else none

/-- The whitespace-delimited membership test used by `analyze_sentiment`:
the source tests `f" {word} " in f" {body} "`. -/
def hasWord (body word : String) : Bool :=
  pyContains (" " ++ body ++ " ") (" " ++ word ++ " ")

/-- `sum(1 for word in ws if f" {word} " in f" {body} ")`. -/
def countWords (body : String) (ws : List String) : Nat :=
  (ws.filter (fun w => hasWord body w)).length

/-- An apostrophe character, used verbatim in several source messages. -/
def squote : String := String.singleton (Char.ofNat 39)

/-- Python `str.split()` with no argument: split on whitespace runs,
dropping empty pieces. -/
def splitWsAux : List Char → List Char → List (List Char)
  | [], cur => [cur.reverse]
  | c :: cs, cur =>
    if c.isWhitespace then cur.reverse :: splitWsAux cs []
    else splitWsAux cs (c :: cur)

def pySplitWs (s : String) : List String :=
  ((splitWsAux s.data []).map String.mk).filter (fun w => w != "")

/-- Python `str.isupper()` on the ASCII content handled here: at least one
letter, and every letter uppercase. -/
def pyIsUpper (s : String) : Bool :=
  let cased := s.data.filter Char.isAlpha
  !cased.isEmpty && cased.all Char.isUpper

/-- Python `round(a / b)` for naturals with `b > 0` (banker's rounding,
half to even), computed from quotient and remainder. -/
def pyRoundDiv (a b : Nat) : Nat :=
  let q := a / b
  let r := a % b
  if 2 * r < b then q
  else if 2 * r > b then q + 1
  else if q % 2 = 0 then q else q + 1

/-! ## `utils.get_top_subreddits` -/

/-- Increment the count of key `k` in an insertion-ordered association
list, mirroring `subreddit_counts[sub] = subreddit_counts.get(sub, 0) + 1`
on an insertion-ordered Python dict. -/
def bumpCount : List (String × Nat) → String → List (String × Nat)
  | [], k => [(k, 1)]
  | (k0, c) :: rest, k =>
    if k0 = k then (k0, c + 1) :: rest else (k0, c) :: bumpCount rest k

/-- Stable insertion (descending by count, new element after equals),
so that folding it reproduces Python's stable
`sorted(..., key=lambda x: x[1], reverse=True)`. -/
def insertByCountDesc (x : String × Nat) : List (String × Nat) → List (String × Nat)
  | [] => [x]
  | y :: ys => if x.2 > y.2 then x :: y :: ys else y :: insertByCountDesc x ys

/-- Stable sort, descending by count. -/
def sortByCountDesc (l : List (String × Nat)) : List (String × Nat) :=
  l.foldl (fun acc x => insertByCountDesc x acc) []

/-- `utils.get_top_subreddits`. -/
def get_top_subreddits (posts : List RPost) (comments : List RComment) : List String :=
  let c1 := posts.foldl (fun acc p => bumpCount acc p.subreddit) []
  let c2 := comments.foldl (fun acc c => bumpCount acc c.subreddit) c1
  (sortByCountDesc c2).map (fun kv => kv.1)

/-! ## `utils.analyze_posting_patterns` and `utils.describe_engagement_patterns` -/

/-- Result of `analyze_posting_patterns`: either the one-key
`{"activity_level": "No activity"}` dict or the full four-key dict.  The
float averages `avg_post_score` / `avg_comment_score` are carried exactly
as (score sum, item count) pairs; the rational value of the dict entry is
recovered by `avg_post_score` / `avg_comment_score` below. -/
inductive Patterns
  | noActivity
  | active (level : String) (type : String) (postSum : Int) (postCnt : Nat)
      (commentSum : Int) (commentCnt : Nat)
  deriving Repr, DecidableEq

/-- `utils.analyze_posting_patterns`.  The source's float comparisons
`post_ratio > 0.7` and `post_ratio > 0.3` (with
`post_ratio = tp / (tp + tc)`) are embedded as the exact cross-multiplied
integer comparisons, with which they coincide. -/
def analyze_posting_patterns (posts : List RPost) (comments : List RComment) : Patterns :=
  let tp := posts.length
  let tc := comments.length
  if tp + tc = 0 then Patterns.noActivity
  else
    let atype :=
      if 10 * tp > 7 * (tp + tc) then "Content creator - prefers making posts over commenting"
      else if 10 * tp > 3 * (tp + tc) then "Balanced user - mix of posts and comments"
      else "Commenter - prefers engaging in discussions"
    let tot := tp + tc
    Patterns.active s!"Active user with {tot} total interactions" atype
      ((posts.map (fun p => p.score)).sum) tp
      ((comments.map (fun c => c.score)).sum) tc

/-- The `avg_post_score` dict entry of an `analyze_posting_patterns` result
(`sum/len if posts else 0`; the missing-key default 0 for the one-key
dict). -/
def avg_post_score : Patterns → ℚ
  | Patterns.noActivity => 0
  | Patterns.active _ _ s c _ _ => if c = 0 then 0 else (s : ℚ) / (c : ℚ)

/-- The `avg_comment_score` dict entry. -/
def avg_comment_score : Patterns → ℚ
  | Patterns.noActivity => 0
  | Patterns.active _ _ _ _ s c => if c = 0 then 0 else (s : ℚ) / (c : ℚ)

/-- Post-score engagement tier sentence from `describe_engagement_patterns`:
`avg > 10` / `avg > 1` on `avg = s / c`, embedded as `s > 10 * c` /
`s > c` (equivalent for `c > 0`, and for the empty case `s = 0, c = 0`
both give the bottom tier exactly as `0 > 10` / `0 > 1` do). -/
def postScoreDesc (s : Int) (c : Nat) : String :=
  if s > 10 * (c : Int) then "Posts tend to receive good engagement from the community"
  else if s > (c : Int) then "Posts receive moderate community engagement"
  else "Posts receive limited community engagement"

/-- Comment-score engagement tier sentence (`avg > 5` / `avg > 1`). -/
def commentScoreDesc (s : Int) (c : Nat) : String :=
  if s > 5 * (c : Int) then "Comments are generally well-received"
  else if s > (c : Int) then "Comments receive moderate appreciation"
  else "Comments receive limited appreciation"

/-- `utils.describe_engagement_patterns` (the `.get` defaults fire exactly
when `analyze_posting_patterns` returned the one-key dict). -/
def describe_engagement_patterns (p : Patterns) : String :=
  let lvl := match p with
    | Patterns.noActivity => "No activity"
    | Patterns.active l _ _ _ _ _ => l
  let typ := match p with
    | Patterns.noActivity => "Unknown activity type"
    | Patterns.active _ t _ _ _ _ => t
  let postLine := match p with
    | Patterns.noActivity => postScoreDesc 0 0
    | Patterns.active _ _ s c _ _ => postScoreDesc s c
  let commentLine := match p with
    | Patterns.noActivity => commentScoreDesc 0 0
    | Patterns.active _ _ _ _ s c => commentScoreDesc s c
  String.intercalate ". " [lvl, typ, postLine, commentLine] ++ "."

/-! ## `utils.extract_interests` -/

/-- The fixed keyword→interest table, in source (dict insertion) order. -/
def interest_mapping : List (String × String) :=
  [("gaming", "Video games and gaming culture"),
   ("technology", "Technology and tech news"),
   ("programming", "Software development and programming"),
   ("politics", "Political discussions and current events"),
   ("news", "Current events and news"),
   ("sports", "Sports and athletics"),
   ("music", "Music and musical discussions"),
   ("movies", "Films and cinema"),
   ("books", "Literature and reading"),
   ("science", "Scientific topics and research"),
   ("askreddit", "General discussions and Q&A"),
   ("funny", "Humor and entertainment"),
   ("pics", "Photography and visual content"),
   ("worldnews", "International news and events"),
   ("food", "Cooking, recipes, and food culture")]

/-- `utils.extract_interests`. -/
def extract_interests (tops : List String) : String :=
  let interests := (tops.take 5).map (fun sub =>
    let sl := pyLower sub
    match interest_mapping.find? (fun kv => pyContains sl kv.1) with
    | some kv => kv.2
    | none => "Content related to r/" ++ sub)
  if interests.isEmpty then "Interests could not be determined from subreddit activity"
  else "\n- " ++ String.intercalate "\n- " interests

/-! ## `utils.analyze_communication_style` -/

/-- `utils.analyze_communication_style`. -/
def analyze_communication_style (comments : List RComment) : String :=
  if comments.isEmpty then "No comments available for communication analysis"
  else
    let sample := (comments.take 20).map (fun c => c.body)
    let total_length := (sample.map String.length).sum
    let denom := min comments.length 20
    let n := sample.length
    let question_count := (sample.filter (fun c => pyContains c "?")).length
    let exclamation_count := (sample.filter (fun c => pyContains c "!")).length
    let caps_count := (sample.filter (fun c =>
      (pySplitWs c).any (fun w => pyIsUpper w && w.length > 2))).length
    -- `avg_length = total_length / denom` with `denom > 0`; the float
    -- comparisons `avg_length > 200` / `< 50` and the count thresholds
    -- `> n * 0.3` / `> n * 0.2` / `> n * 0.1` are embedded as their exact
    -- cross-multiplied integer equivalents.
    let t1 :=
      if total_length > 200 * denom then "Tends to write detailed, lengthy responses"
      else if total_length < 50 * denom then "Prefers brief, concise communication"
      else "Uses moderate-length responses"
    let traits := [t1]
      ++ (if 10 * question_count > 3 * n
          then ["Frequently asks questions and seeks engagement"] else [])
      ++ (if 10 * exclamation_count > 2 * n
          then ["Expressive and enthusiastic in tone"] else [])
      ++ (if 10 * caps_count > n
          then ["Occasionally uses emphasis (caps) for strong points"] else [])
    if traits.isEmpty then "Communication style could not be determined"
    else String.intercalate ". " traits ++ "."

/-! ## `utils.analyze_sentiment` -/

/-- Positive lexicon (source order). -/
def positive_words : List String :=
  ["good", "great", "awesome", "love", "like", "amazing", "excellent", "fantastic",
   "happy", "glad", "wonderful", "nice", "best", "perfect", "enjoy", "pleased",
   "impressive", "exciting", "brilliant", "beautiful", "helpful", "recommend"]

/-- Negative lexicon (source order). -/
def negative_words : List String :=
  ["bad", "terrible", "hate", "awful", "horrible", "stupid", "worst", "sucks",
   "disappointed", "annoying", "poor", "disappointing", "useless", "waste",
   "frustrating", "ugly", "boring", "dumb", "sad", "angry", "disgusting"]

def enthusiastic_words : List String :=
  ["love", "amazing", "awesome", "fantastic", "incredible", "perfect", "brilliant"]

def analytical_words : List String :=
  ["think", "consider", "analyze", "question", "perspective", "opinion", "view", "fact"]

def skeptical_words : List String :=
  ["doubt", "skeptical", "suspicious", "questionable", "unsure", "uncertain"]

def extrovert_words : List String :=
  ["party", "social", "people", "friends", "everyone", "group", "team", "community",
   "together", "share", "meet", "talk", "discuss", "outgoing", "network", "public"]

def introvert_words : List String :=
  ["alone", "quiet", "myself", "solitude", "private", "personal", "individual",
   "独自", "focus", "concentrate", "read", "book", "home", "peace", "calm"]

def sensing_words : List String :=
  ["fact", "detail", "specific", "practical", "concrete", "real", "actual", "evidence",
   "data", "number", "measure", "step", "procedure", "method", "experience", "example"]

def intuition_words : List String :=
  ["idea", "concept", "theory", "possibility", "future", "imagine", "creative", "vision",
   "potential", "abstract", "pattern", "meaning", "symbolic", "innovative", "inspire"]

def thinking_words : List String :=
  ["logic", "rational", "reason", "analysis", "objective", "fair", "truth", "fact",
   "efficient", "system", "principle", "criteria", "evaluate", "judge", "critical"]

def feeling_words : List String :=
  ["feel", "emotion", "heart", "care", "love", "empathy", "compassion", "harmony",
   "value", "personal", "relationship", "support", "help", "understand", "appreciate"]

def judging_words : List String :=
  ["plan", "organize", "schedule", "deadline", "decision", "complete", "finish",
   "structure", "order", "control", "goal", "target", "achieve", "commit"]

def perceiving_words : List String :=
  ["flexible", "adapt", "spontaneous", "open", "explore", "option", "change",
   "maybe", "perhaps", "different", "variety", "freedom", "casual", "relax"]

/-- Per-community sentiment tallies (dict value `{"positive","negative","total"}`),
kept as an insertion-ordered association list `(community, pos, neg, total)`. -/
def bumpSub (l : List (String × Nat × Nat × Nat)) (k : String) (cp cn : Nat) :
    List (String × Nat × Nat × Nat) :=
  match l with
  | [] => [(k, cp, cn, 1)]
  | (k0, p, n, t) :: rest =>
    if k0 = k then (k0, p + cp, n + cn, t + 1) :: rest
    else (k0, p, n, t) :: bumpSub rest k cp cn

/-- Insert into the found-words accumulation the words of `ws` present in
`body` that are not yet recorded (the `set.add` loop), keeping first-insertion
order as the canonical enumeration. -/
def addFound (acc : List String) (body : String) (ws : List String) : List String :=
  ws.foldl (fun a w =>
    if hasWord body w then (if a.contains w then a else a ++ [w]) else a) acc

/-- The sample-quote update (`sentiment_samples` branch of the comment loop). -/
def updateSamples (sp sn su : List String) (body : String) (cp cn : Nat) :
    List String × List String × List String :=
  if 20 < body.length ∧ body.length < 200 then
    if cp > 0 ∧ cn = 0 ∧ sp.length < 3 then (sp ++ [body], sn, su)
    else if cn > 0 ∧ cp = 0 ∧ sn.length < 3 then (sp, sn ++ [body], su)
    else if cp = 0 ∧ cn = 0 ∧ su.length < 3 then (sp, sn, su ++ [body])
    else (sp, sn, su)
  else (sp, sn, su)

/-- Accumulated state of the comment loop in `analyze_sentiment`. -/
structure SentAcc where
  positive_count : Nat
  negative_count : Nat
  enthusiastic_count : Nat
  analytical_count : Nat
  skeptical_count : Nat
  extrovert_count : Nat
  introvert_count : Nat
  sensing_count : Nat
  intuition_count : Nat
  thinking_count : Nat
  feeling_count : Nat
  judging_count : Nat
  perceiving_count : Nat
  foundPositive : List String
  foundNegative : List String
  subreddit_sentiment : List (String × Nat × Nat × Nat)
  samples_positive : List String
  samples_negative : List String
  samples_neutral : List String
  deriving Repr, DecidableEq

def emptySentAcc : SentAcc :=
  ⟨0, 0, 0, 0, 0, 0, 0, 0, 0, 0, 0, 0, 0, [], [], [], [], [], []⟩

/-- One iteration of the `for comment in comments[:100]` loop. -/
def sentStep (acc : SentAcc) (c : RComment) : SentAcc :=
  let body := pyLower c.body
  let cp := countWords body positive_words
  let cn := countWords body negative_words
  let (sp, sn, su) :=
    updateSamples acc.samples_positive acc.samples_negative acc.samples_neutral body cp cn
  { positive_count := acc.positive_count + cp
    negative_count := acc.negative_count + cn
    enthusiastic_count := acc.enthusiastic_count + countWords body enthusiastic_words
    analytical_count := acc.analytical_count + countWords body analytical_words
    skeptical_count := acc.skeptical_count + countWords body skeptical_words
    extrovert_count := acc.extrovert_count + countWords body extrovert_words
    introvert_count := acc.introvert_count + countWords body introvert_words
    sensing_count := acc.sensing_count + countWords body sensing_words
    intuition_count := acc.intuition_count + countWords body intuition_words
    thinking_count := acc.thinking_count + countWords body thinking_words
    feeling_count := acc.feeling_count + countWords body feeling_words
    judging_count := acc.judging_count + countWords body judging_words
    perceiving_count := acc.perceiving_count + countWords body perceiving_words
    foundPositive := addFound acc.foundPositive body positive_words
    foundNegative := addFound acc.foundNegative body negative_words
    subreddit_sentiment := bumpSub acc.subreddit_sentiment c.subreddit cp cn
    samples_positive := sp
    samples_negative := sn
    samples_neutral := su }

/-- Per-community summary entry. -/
structure SubSent where
  sentiment : String
  score : ℚ
  comments : Nat
  deriving Repr, DecidableEq

/-- The post-loop `subreddit_sentiment_summary` computation. -/
def subredditSummary (l : List (String × Nat × Nat × Nat)) : List (String × SubSent) :=
  l.filterMap (fun e =>
    if e.2.2.2 ≥ 3 then
      -- `ratio = (pos - neg) / max(1, total)`; `ratio > 0.1` / `< -0.1`
      -- embedded as the exact cross-multiplied comparisons
      let d : Int := (e.2.1 : Int) - (e.2.2.1 : Int)
      let m : Int := (max 1 e.2.2.2 : Nat)
      let s := if 10 * d > m then "positive"
        else if 10 * d < -m then "negative" else "neutral"
      some (e.1, ⟨s, (d : ℚ) / (m : ℚ), e.2.2.2⟩)
    else none)

/-- The overall-tone tier chain of `analyze_sentiment`.  The source compares
against `negative * 2` and `negative * 1.2` (IEEE doubles); on integer
counts below `2 ^ 49` the double comparison with the literal `1.2`
coincides with the exact comparison against `6 / 5`, so the embedding uses
the exact rational. -/
def sentimentSummaryBase (positive negative : Nat) : String :=
  if positive > 2 * negative then
    "Consistently positive and optimistic in communication"
  else if 5 * positive > 6 * negative then
    "Generally positive in communication with occasional criticism"
  else if negative > 2 * positive then
    "Predominantly critical or negative in commentary"
  else if 5 * negative > 6 * positive then
    "Tends toward critical perspectives with some positive elements"
  else "Balanced emotional expression in comments"

/-- One MBTI axis label: with `ratio = a / max(1, a + b)`, the source's
`ratio > 0.6` / `ratio < 0.4` embedded as the exact cross-multiplied
comparisons. -/
def mbtiLabel (a b : Nat) (hi lo bal : String) : String :=
  let m := max 1 (a + b)
  if 5 * a > 3 * m then hi else if 5 * a < 2 * m then lo else bal

/-- The `mbti` sub-dict of the result. -/
structure MBTIData where
  extrovert_count : Nat
  introvert_count : Nat
  extrovert_ratio : ℚ
  sensing_count : Nat
  intuition_count : Nat
  sensing_ratio : ℚ
  thinking_count : Nat
  feeling_count : Nat
  thinking_ratio : ℚ
  judging_count : Nat
  perceiving_count : Nat
  judging_ratio : ℚ
  summary : String
  deriving Repr, DecidableEq

/-- The `data` sub-dict of the `analyze_sentiment` result. -/
structure SentimentData where
  positive_count : Nat
  negative_count : Nat
  positive_words : List String
  negative_words : List String
  sentiment_ratio : ℚ
  subreddit_sentiment : List (String × SubSent)
  samples_positive : List String
  samples_negative : List String
  samples_neutral : List String
  personality_traits : List String
  mbti : MBTIData
  deriving Repr, DecidableEq

/-- The `analyze_sentiment` result; `data = none` embeds the empty dict
returned for an empty comment list. -/
structure Sentiment where
  summary : String
  data : Option SentimentData
  deriving Repr, DecidableEq

/-- A valid runtime enumeration of a Python `set`: some permutation of the
distinct inserted elements. -/
def IsSetEnum (f : List String → List String) : Prop := ∀ l, (f l).Perm l

/-- `utils.analyze_sentiment`, parameterized by the runtime set enumeration
`setEnum` (used exactly where the source calls `list(found_positive)` and
`list(found_negative)`). -/
def analyze_sentiment (setEnum : List String → List String)
    (comments : List RComment) : Sentiment :=
  if comments.isEmpty then ⟨"No comments to analyze sentiment", none⟩
  else
    let acc := (comments.take 100).foldl sentStep emptySentAcc
    let nc := comments.length
    let pos := acc.positive_count
    let neg := acc.negative_count
    let sentiment_ratio : ℚ := ((pos : ℚ) - (neg : ℚ)) / (max 1 (pos + neg) : ℚ)
    -- thresholds `count > len(comments) * 0.1` (resp. `0.15`), embedded as
    -- the exact cross-multiplied integer comparisons
    let personality_traits :=
      (if 10 * acc.enthusiastic_count > nc then ["enthusiastic"] else [])
      ++ (if 20 * acc.analytical_count > 3 * nc then ["analytical"] else [])
      ++ (if 10 * acc.skeptical_count > nc then ["skeptical"] else [])
    let summary :=
      if personality_traits.isEmpty then sentimentSummaryBase pos neg
      else
        let ts := String.intercalate ", " personality_traits
        sentimentSummaryBase pos neg ++ s!". Displays {ts} tendencies."
    let er : ℚ := (acc.extrovert_count : ℚ) / (max 1 (acc.extrovert_count + acc.introvert_count) : ℚ)
    let sr : ℚ := (acc.sensing_count : ℚ) / (max 1 (acc.sensing_count + acc.intuition_count) : ℚ)
    let tr : ℚ := (acc.thinking_count : ℚ) / (max 1 (acc.thinking_count + acc.feeling_count) : ℚ)
    let jr : ℚ := (acc.judging_count : ℚ) / (max 1 (acc.judging_count + acc.perceiving_count) : ℚ)
    let mbti_summary := String.intercalate " / "
      [mbtiLabel acc.extrovert_count acc.introvert_count "Extrovert" "Introvert" "Balanced E/I",
       mbtiLabel acc.sensing_count acc.intuition_count "Sensing" "Intuition" "Balanced S/N",
       mbtiLabel acc.thinking_count acc.feeling_count "Thinking" "Feeling" "Balanced T/F",
       mbtiLabel acc.judging_count acc.perceiving_count "Judging" "Perceiving" "Balanced J/P"]
    ⟨summary, some
      { positive_count := pos
        negative_count := neg
        positive_words := setEnum acc.foundPositive
        negative_words := setEnum acc.foundNegative
        sentiment_ratio := sentiment_ratio
        subreddit_sentiment := subredditSummary acc.subreddit_sentiment
        samples_positive := acc.samples_positive
        samples_negative := acc.samples_negative
        samples_neutral := acc.samples_neutral
        personality_traits := personality_traits
        mbti :=
          { extrovert_count := acc.extrovert_count
            introvert_count := acc.introvert_count
            extrovert_ratio := er
            sensing_count := acc.sensing_count
            intuition_count := acc.intuition_count
            sensing_ratio := sr
            thinking_count := acc.thinking_count
            feeling_count := acc.feeling_count
            thinking_ratio := tr
            judging_count := acc.judging_count
            perceiving_count := acc.perceiving_count
            judging_ratio := jr
            summary := mbti_summary } }⟩

/-! ## `utils.format_sentiment_analysis` -/

/-- `utils.format_sentiment_analysis`. -/
def format_sentiment_analysis (s : Sentiment) : String :=
  match s.data with
  | none => s.summary
  | some d =>
    let breakdown :=
      if d.positive_count > 0 ∨ d.negative_count > 0 then
        let t := d.positive_count + d.negative_count
        if t > 0 then
          let pp := pyRoundDiv (100 * d.positive_count) t
          let np := 100 - pp
          [s!"Sentiment breakdown: {pp}% positive, {np}% negative sentiment words found"]
        else []
      else []
    let posWords :=
      if d.positive_words.isEmpty then []
      else
        let ws := String.intercalate ", " (d.positive_words.take 5)
        [s!"Frequently uses positive words: {ws}"]
    let traits :=
      if d.personality_traits.isEmpty then []
      else
        let ts := String.intercalate ", " d.personality_traits
        [s!"Communication traits: {ts}"]
    let subs :=
      let positive_subs :=
        (d.subreddit_sentiment.filter (fun e => e.2.sentiment == "positive")).map (fun e => e.1)
      if positive_subs.isEmpty then []
      else
        let ss := String.intercalate ", " ((positive_subs.take 3).map (fun sub => "r/" ++ sub))
        [s!"Most positive in: {ss}"]
    String.intercalate "\n" ([s.summary] ++ breakdown ++ posWords ++ traits ++ subs)

/-! ## `persona_generator.create_fallback_persona` -/

/-- `PersonaGenerator.create_fallback_persona`. -/
def create_fallback_persona (setEnum : List String → List String) (username : String)
    (posts : List RPost) (comments : List RComment) : String × Sentiment :=
  let top_subreddits := get_top_subreddits posts comments
  let posting_patterns := analyze_posting_patterns posts comments
  let sentiment_data := analyze_sentiment setEnum comments
  let np := posts.length
  let nc := comments.length
  let top3 := String.intercalate ", " (top_subreddits.take 3)
  let interests := extract_interests top_subreddits
  let comm := analyze_communication_style comments
  let engage := describe_engagement_patterns posting_patterns
  let sentTxt := format_sentiment_analysis sentiment_data
  let persona :=
    s!"REDDIT USER PERSONA: {username}\n\nACTIVITY OVERVIEW:\n- Posts: {np}\n- Comments: {nc}\n- Most active in: {top3}\n\nINTERESTS:\nBased on subreddit activity, this user is interested in:\n{interests}\n\nCOMMUNICATION STYLE:\n{comm}\n\nENGAGEMENT PATTERNS:\n{engage}\n\nSENTIMENT ANALYSIS:\n{sentTxt}\n\n"
  (persona, sentiment_data)

/-! ## `model_manager.generate_with_timeout`

The model call itself is an external capability.  Its observable outcome is
embedded as `GenOutcome`: the signal-based deadline firing (`TimeoutError`),
any other exception, or the returned response list, each entry carrying the
optional `generated_text` field.  `generate_with_timeout` catches
`TimeoutError` and every other exception and returns `None`, so the embedded
function is total into `Option String`. -/

inductive GenOutcome
  | timeout
  | exc (msg : String)
  | resp (entries : List (Option String))
  deriving Repr, DecidableEq

/-- The `"PROFILE:"` extraction step:
`generated_text.split("PROFILE:")[-1].strip()` when the marker occurs,
else `generated_text.strip()`. -/
def extractPersona (t : String) : String :=
  if pyContains t "PROFILE:" then
    pyStrip (String.mk ((afterLast "PROFILE:".data t.data).getD t.data))
  else pyStrip t

/-- `ModelManager.generate_with_timeout`: the post-processing and error
absorption around the model invocation. -/
def generate_with_timeout (raw : GenOutcome) : Option String :=
  match raw with
  | GenOutcome.timeout => none
  | GenOutcome.exc _ => none
  | GenOutcome.resp [] => none
  | GenOutcome.resp (e :: _) =>
    match e with
    | none => none
    | some t =>
      let persona := extractPersona t
      if (pyStrip persona).length < 10 then none else some persona

/-! ## Job status record and progress updates -/

/-- A progress update emitted through `update_progress`:
`(stage, progress, message)`. -/
abbrev Upd := String × Nat × String

/-- The shared status record (`current_status`). -/
structure Status where
  stage : String
  progress : Nat
  message : String
  error : Option String
  completed : Bool
  output_file : Option String
  deriving Repr, DecidableEq

/-- The idle record installed by `reset_status` / at startup. -/
def initialStatus : Status :=
  ⟨"idle", 0, "Ready", none, false, none⟩

/-- `update_progress` (identical in `RedditPersonaGenerator.update_progress`
and the web callback): overwrite stage/progress/message, derive `completed`
from the stage, clear `error` unless the stage is `"error"`. -/
def updateProgress (st : Status) (u : Upd) : Status :=
  { st with
    stage := u.1
    progress := u.2.1
    message := u.2.2
    completed := u.1 == "completed"
    error := if u.1 != "error" then none else st.error }

/-- Fold a trace of updates over a starting record. -/
def applyUpdates (st : Status) (tr : List Upd) : Status :=
  tr.foldl updateProgress st

/-! ## `model_manager.load_model` (candidate iteration) -/

/-- The ordered candidate list (`config.DEFAULT_MODELS`). -/
def DEFAULT_MODELS : List String :=
  ["microsoft/DialoGPT-medium", "gpt2", "distilgpt2"]

/-- The error message raised when every candidate fails. -/
def noModelMsg : String :=
  "No suitable model could be loaded. Please check your internet connection and try again."

/-- Candidate iteration of `load_model`: each candidate either initializes
fully (first success wins) or fails at some step, logs, and advances.  The
intra-candidate progress updates between the first attempt message and the
outcome are elided; no claim depends on them. -/
def loadAttempts : List (String × Bool) → List Upd × Except String Unit
  | [] => ([], Except.error noModelMsg)
  | (n, ok) :: rest =>
    if ok then
      ([("loading", 10, s!"Trying {n} on cpu..."),
        ("loading", 100, s!"Model {n} loaded successfully with safetensors!")],
       Except.ok ())
    else
      let (tr, r) := loadAttempts rest
      (("loading", 10, s!"Trying {n} on cpu...") ::
       ("loading", 30, s!"Failed to load {n}, trying next...") :: tr, r)

/-- `ModelManager.load_model`, given the per-candidate load outcomes. -/
def load_model (cands : List (String × Bool)) : List Upd × Except String Unit :=
  let (tr, r) := loadAttempts cands
  (("loading", 0, "Loading language model...") :: tr, r)

/-! ## `persona_generator.generate_persona` -/

/-- `PersonaGenerator.generate_persona`: the always-run sentiment step, the
model attempt, and the fallback.  Returns the `(persona, sentiment_data)`
pair together with the trace of progress updates.  The cosmetic background
progress ticker thread (which re-emits `generating_persona` percentages on a
timer) is timing-dependent and not modelled. -/
def generate_persona (setEnum : List String → List String) (raw : GenOutcome)
    (username : String) (posts : List RPost) (comments : List RComment) :
    (String × Sentiment) × List Upd :=
  let sentiment_data := analyze_sentiment setEnum comments
  let tr0 : List Upd :=
    [("analyzing_sentiment", 0, "Starting sentiment analysis..."),
     ("analyzing_sentiment", 100, "Sentiment analysis complete"),
     ("preparing_data", 0, "Preparing data for persona generation..."),
     ("generating_persona", 0, "Creating persona prompt..."),
     ("generating_persona", 20, "Starting AI generation (this may take 2-5 minutes on CPU)...")]
  match generate_with_timeout raw with
  | some persona =>
    ((persona, sentiment_data),
     tr0 ++ [("generating_persona", 85, "AI generation complete, processing results..."),
             ("generating_persona", 100, "Persona generation complete!")])
  | none =>
    let (fp, sd) := create_fallback_persona setEnum username posts comments
    ((fp, sd),
     tr0 ++ [("generating_persona", 60, "Using fallback generation method..."),
             ("generating_persona", 100, "Persona generation complete (fallback method)!")])

/-! ## `reddit_persona_generator.generate_full_persona` -/

/-- External collaborators of one pipeline run: whether a model handle is
already cached, the per-candidate load outcomes, the data fetch (its progress
updates and its result), the model invocation outcome, and the persistence
result (the saved file path on success). -/
structure Env where
  modelLoaded : Bool
  candidates : List Bool
  scrapeEmits : List Upd
  scrape : Except String (List RPost × List RComment)
  rawGen : GenOutcome
  save : Except String String

/-- The update emitted by the outer exception handler of
`generate_full_persona`. -/
def errUpd (e : String) : Upd := ("error", 0, "Generation failed: " ++ e)

/-- The no-data error message (`ValueError` text). -/
def noDataMsg (username : String) : String :=
  let q := squote
  s!"No data found for user {q}{username}{q}"

/-- `RedditPersonaGenerator.generate_full_persona`: the full pipeline,
returning the emitted update trace and the result (`ok output_file`, or the
re-raised exception's message).  Every failure path appends the outer
handler's `error` update before re-raising. -/
def generate_full_persona (env : Env) (setEnum : List String → List String)
    (username : String) : List Upd × Except String String :=
  let tr0 : List Upd := [("initializing", 0, "Setting up generation environment...")]
  let loadStep : List Upd × Except String Unit :=
    if env.modelLoaded then (tr0, Except.ok ())
    else
      let (ltr, r) := load_model (DEFAULT_MODELS.zip env.candidates)
      (tr0 ++ [("initializing", 50, "Loading AI model...")] ++ ltr, r)
  match loadStep with
  | (tr1, Except.error e) => (tr1 ++ [errUpd e], Except.error e)
  | (tr1, Except.ok ()) =>
    let tr2 := tr1 ++ [("initializing", 100, "Initialization complete"),
                       ("fetching_posts", 0, "Starting to fetch user posts...")]
                   ++ env.scrapeEmits
    match env.scrape with
    | Except.error e => (tr2 ++ [errUpd e], Except.error e)
    | Except.ok (posts, comments) =>
      if posts.isEmpty && comments.isEmpty then
        let e := noDataMsg username
        (tr2 ++ [("error", 0, e), errUpd e], Except.error e)
      else
        let np := posts.length
        let nc := comments.length
        let tr3 := tr2 ++ [("preparing_data", 0, "Processing collected data..."),
                           ("preparing_data", 50, s!"Found {np} posts and {nc} comments"),
                           ("preparing_data", 100, "Data preparation complete"),
                           ("generating_persona", 0, "Starting AI persona generation...")]
        let gtr := (generate_persona setEnum env.rawGen username posts comments).2
        let tr4 := tr3 ++ gtr ++ [("saving_results", 0, "Saving persona to file..."),
                                  ("saving", 0, "Saving results...")]
        match env.save with
        | Except.error e => (tr4 ++ [errUpd e], Except.error e)
        | Except.ok file =>
          (tr4 ++ [("saving", 100, s!"Results saved to {file}"),
                   ("saving_results", 100, "Results saved successfully"),
                   ("finalizing", 0, "Finalizing generation..."),
                   ("finalizing", 100, "Generation complete!")],
           Except.ok file)

/-! ## `web_interface` admission, worker wrapper -/

/-- Extract the bare filename as the worker does
(`output_file.split('/')[-1]`, then the backslash variant). -/
def basenameOf (f : String) : String :=
  if pyContains f "/" then String.mk ((afterLast "/".data f.data).getD f.data)
  else if pyContains f "\\" then String.mk ((afterLast "\\".data f.data).getD f.data)
  else f

/-- The status installed by `/generate` before the worker starts. -/
def startingStatus : Status :=
  ⟨"starting", 0, "Initializing...", none, false, none⟩

/-- `run_generation` (the worker body of `/generate`): runs the pipeline,
then installs the terminal record — `completed` on success, `error` with the
verbatim message on failure.  Returns the final web-visible status. -/
def run_generation (env : Env) (setEnum : List String → List String)
    (username : String) : Status :=
  let (tr, res) := generate_full_persona env setEnum username
  let st := applyUpdates startingStatus tr
  match res with
  | Except.ok file =>
    { st with
      stage := "completed"
      progress := 100
      message := "Persona generation completed successfully!"
      completed := true
      output_file := some (basenameOf file)
      error := none }
  | Except.error e =>
    { st with
      stage := "error"
      progress := 0
      message := "Error: " ++ e
      completed := false
      error := some e }

/-- Outcome of the `/generate` admission check. -/
inductive SubmitOutcome
  | usernameRequired
  | alreadyRunning
  | started (forcedClear : Bool)
  deriving Repr, DecidableEq

/-- The admission logic of the `/generate` route: reject empty usernames;
if the lock is held, self-heal when the recorded state is terminal
(`completed` flag set, or stage `"error"`/`"completed"`), otherwise reject
with 409 `AlreadyRunning`. -/
def generate_submit (lock : Bool) (st : Status) (username : String) : SubmitOutcome :=
  if pyStrip username = "" then SubmitOutcome.usernameRequired
  else if lock then
    if st.completed || st.stage == "error" || st.stage == "completed" then
      SubmitOutcome.started true
    else SubmitOutcome.alreadyRunning
  else SubmitOutcome.started false

/-! ## Derived notions used by the verification -/

/-- Collapse consecutive duplicates, so a trace's stage list becomes the
sequence of distinct visited stages. -/
def collapseConsec : List String → List String
  | [] => []
  | [a] => [a]
  | a :: b :: rest =>
    if a = b then collapseConsec (b :: rest) else a :: collapseConsec (b :: rest)

/-- The updates `scrape_user` emits on a run whose batches never reach a
flush threshold (fewer than 10 posts and 20 comments fetched). -/
def stdScrapeTrace (username : String) (np nc : Nat) : List Upd :=
  [("fetching_posts", 0, s!"Starting to scrape user: {username}"),
   ("fetching_posts", 0, "Starting to fetch user posts..."),
   ("fetching_comments", 0, "Starting to fetch user comments..."),
   ("fetching_comments", 100, s!"Scraping complete! Found {np} posts and {nc} comments")]

/-- The `activity_type` field of an `analyze_posting_patterns` result. -/
def activityTypeOf : Patterns → String
  | Patterns.noActivity => ""
  | Patterns.active _ t _ _ _ _ => t

/-- Blank out the two set-enumeration-dependent fields of a sentiment
result, leaving every other component. -/
def eraseFoundWords (s : Sentiment) : Sentiment :=
  { s with data := s.data.map (fun d => { d with positive_words := [], negative_words := [] }) }

/-- The found-word lists of a sentiment result (empty when `data` is empty). -/
def positiveWordsOf (s : Sentiment) : List String :=
  (s.data.map (fun d => d.positive_words)).getD []

def negativeWordsOf (s : Sentiment) : List String :=
  (s.data.map (fun d => d.negative_words)).getD []

/-- The insertion-ordered distinct positive words found in a comment list
(the contents of the `found_positive` set after the loop). -/
def foundPositiveIn (comments : List RComment) : List String :=
  ((comments.take 100).foldl sentStep emptySentAcc).foundPositive

def foundNegativeIn (comments : List RComment) : List String :=
  ((comments.take 100).foldl sentStep emptySentAcc).foundNegative

/-- Follows the spec's words ("free of obvious truncation artifacts"): a
generated body that stops without sentence-terminal punctuation is obviously
truncated mid-sentence. -/
def specTruncationArtifact (s : String) : Bool :=
  !(pyEndsWith s "." || pyEndsWith s "!" || pyEndsWith s "?")

/-- The worked example's posts: 5 posts in community `gaming` with scores
1..5. -/
def gamingPosts : List RPost :=
  [⟨"p1", "gaming", 1⟩, ⟨"p2", "gaming", 2⟩, ⟨"p3", "gaming", 3⟩,
   ⟨"p4", "gaming", 4⟩, ⟨"p5", "gaming", 5⟩]

/-! ## Claim theorems -/

/-- **C10.** The sentiment output is a function of the comments only: the
always-run sentiment step of `generate_persona` and the sentiment component
of the fallback persona both equal `analyze_sentiment` of the comments alone
(hence two inputs differing only in posts give identical sentiment output),
and an empty comment list yields the fixed no-comments result with empty
data. -/
theorem sentiment_depends_only_on_comments :
    (∀ (setEnum : List String → List String) (u : String) (ps : List RPost)
        (cs : List RComment),
      (create_fallback_persona setEnum u ps cs).2 = analyze_sentiment setEnum cs) ∧
    (∀ (setEnum : List String → List String) (raw : GenOutcome) (u : String)
        (ps : List RPost) (cs : List RComment),
      (generate_persona setEnum raw u ps cs).1.2 = analyze_sentiment setEnum cs) ∧
    (∀ setEnum : List String → List String,
      analyze_sentiment setEnum [] = ⟨"No comments to analyze sentiment", none⟩) := by
  refine ⟨fun setEnum u ps cs => rfl, fun setEnum raw u ps cs => ?_, fun setEnum => rfl⟩
  cases hg : generate_with_timeout raw <;>
    simp [generate_persona, hg, create_fallback_persona]

/-- **C4.** A model invocation that exceeds its deadline is returned to the
caller as the typed no-result value (no exception escapes
`generate_with_timeout`); the orchestrator treats it as no persona produced
and returns the rule-based fallback persona; and a job whose model
invocation times out still finishes successfully. -/
theorem timeout_yields_none_then_fallback :
    generate_with_timeout GenOutcome.timeout = none ∧
    (∀ (setEnum : List String → List String) (u : String) (ps : List RPost)
        (cs : List RComment),
      (generate_persona setEnum GenOutcome.timeout u ps cs).1 =
        create_fallback_persona setEnum u ps cs) ∧
    (∀ (cands : List Bool) (sc : List Upd) (f : String)
        (setEnum : List String → List String) (u : String)
        (ps : List RPost) (cs : List RComment),
      (ps.isEmpty && cs.isEmpty) = false →
      (generate_full_persona
          ⟨true, cands, sc, Except.ok (ps, cs), GenOutcome.timeout, Except.ok f⟩
          setEnum u).2 = Except.ok f) := by
  refine ⟨rfl, fun setEnum u ps cs => rfl, fun cands sc f setEnum u ps cs h => ?_⟩
  simp [generate_full_persona, h]

/-- Witness for the hypothesis of `timeout_yields_none_then_fallback`. -/
theorem timeout_yields_none_then_fallback_witness :
    ((([⟨"t", "g", 1⟩] : List RPost).isEmpty && ([] : List RComment).isEmpty) = false) ∧
    (generate_full_persona
        ⟨true, [], [], Except.ok ([⟨"t", "g", 1⟩], []), GenOutcome.timeout,
          Except.ok "o.txt"⟩
        (fun l => l) "u").2 = Except.ok "o.txt" :=
  ⟨by decide,
   timeout_yields_none_then_fallback.2.2 [] [] "o.txt" (fun l => l) "u"
     [⟨"t", "g", 1⟩] [] (by decide)⟩

/-- **C5.** If the fetch returns empty posts and empty comments, the job
fails with the no-data error: the pipeline re-raises it to the caller, and
the final status is the Errored stage carrying the verbatim (non-empty)
error message. -/
theorem no_data_errors_job (cands : List Bool) (sc : List Upd) (raw : GenOutcome)
    (sv : Except String String) (setEnum : List String → List String) (u : String) :
    (generate_full_persona ⟨true, cands, sc, Except.ok ([], []), raw, sv⟩ setEnum u).2
      = Except.error (noDataMsg u) ∧
    (run_generation ⟨true, cands, sc, Except.ok ([], []), raw, sv⟩ setEnum u).stage
      = "error" ∧
    (run_generation ⟨true, cands, sc, Except.ok ([], []), raw, sv⟩ setEnum u).error
      = some (noDataMsg u) ∧
    (run_generation ⟨true, cands, sc, Except.ok ([], []), raw, sv⟩ setEnum u).message
      = "Error: " ++ noDataMsg u ∧
    ("Error: " ++ noDataMsg u) ≠ "" := by
  refine ⟨rfl, ?_, ?_, ?_, ?_⟩
  · simp [run_generation, generate_full_persona]
  · simp [run_generation, generate_full_persona]
  · simp [run_generation, generate_full_persona]
  · intro h
    have h2 := congrArg String.data h
    simp [String.data_append] at h2

/-- **C1 (amended).** If every model candidate fails to load, `load_model`
raises its no-model error and the pipeline does NOT absorb it: the job
transitions to the Errored stage with that error and re-raises it; it does
not reach Completed and no fallback persona is produced.  (The analysis
fallback covers only invocation-time failures after a successful load.) -/
theorem allCandidatesFail_job_errored (sc : List Upd)
    (fetch : Except String (List RPost × List RComment)) (raw : GenOutcome)
    (sv : Except String String) (setEnum : List String → List String) (u : String) :
    (generate_full_persona ⟨false, [false, false, false], sc, fetch, raw, sv⟩ setEnum u).2
      = Except.error noModelMsg ∧
    (run_generation ⟨false, [false, false, false], sc, fetch, raw, sv⟩ setEnum u).stage
      = "error" ∧
    (run_generation ⟨false, [false, false, false], sc, fetch, raw, sv⟩ setEnum u).completed
      = false ∧
    (run_generation ⟨false, [false, false, false], sc, fetch, raw, sv⟩ setEnum u).error
      = some noModelMsg := by
  refine ⟨rfl, ?_, ?_, ?_⟩ <;>
    simp [run_generation, generate_full_persona, load_model, loadAttempts, DEFAULT_MODELS]

/-- **C1 (counterexample to the claim as stated).** A concrete job whose
candidates all fail to load, with data available and a usable fallback: the
job ends Errored, not Completed. -/
theorem allCandidatesFail_reaches_completed_cex :
    (run_generation
        ⟨false, [false, false, false], [], Except.ok ([⟨"t", "gaming", 1⟩], []),
          GenOutcome.resp [some "PROFILE: a long enough persona body."],
          Except.ok "o.txt"⟩
        (fun l => l) "kojied").stage = "error" ∧
    (run_generation
        ⟨false, [false, false, false], [], Except.ok ([⟨"t", "gaming", 1⟩], []),
          GenOutcome.resp [some "PROFILE: a long enough persona body."],
          Except.ok "o.txt"⟩
        (fun l => l) "kojied").completed = false ∧
    (generate_full_persona
        ⟨false, [false, false, false], [], Except.ok ([⟨"t", "gaming", 1⟩], []),
          GenOutcome.resp [some "PROFILE: a long enough persona body."],
          Except.ok "o.txt"⟩
        (fun l => l) "kojied").2 = Except.error noModelMsg := by
  refine ⟨?_, ?_, rfl⟩ <;> rfl

/-- **C2.** With a non-empty submitted username, admission returns
`AlreadyRunning` iff the lock is held and the recorded status is
non-terminal (`completed` flag clear and stage neither `"error"` nor
`"completed"`); when the lock is held but the status is terminal, the stale
lock is force-cleared and the submission is admitted. -/
theorem submit_alreadyRunning_iff (lock : Bool) (st : Status) (u : String)
    (h : pyStrip u ≠ "") :
    (generate_submit lock st u = SubmitOutcome.alreadyRunning ↔
      lock = true ∧ st.completed = false ∧ st.stage ≠ "error" ∧ st.stage ≠ "completed") ∧
    (lock = true →
      (st.completed = true ∨ st.stage = "error" ∨ st.stage = "completed") →
      generate_submit lock st u = SubmitOutcome.started true) := by
  unfold generate_submit
  rw [if_neg h]
  cases lock with
  | false => simp
  | true =>
    by_cases hc : st.completed
    · simp [hc]
    · by_cases he : st.stage = "error"
      · simp [hc, he]
      · by_cases hd : st.stage = "completed"
        · simp [hc, he, hd]
        · simp [hc, he, hd]

/-- Witness for `submit_alreadyRunning_iff`: a held lock over a non-terminal
status and the username `"bob"`. -/
theorem submit_alreadyRunning_iff_witness :
    (pyStrip "bob" ≠ "") ∧
    ((generate_submit true ⟨"generating_persona", 50, "m", none, false, none⟩ "bob"
        = SubmitOutcome.alreadyRunning ↔
      true = true ∧ false = false ∧ ("generating_persona" : String) ≠ "error" ∧
        ("generating_persona" : String) ≠ "completed") ∧
     (true = true →
      (false = true ∨ ("generating_persona" : String) = "error" ∨
        ("generating_persona" : String) = "completed") →
      generate_submit true ⟨"generating_persona", 50, "m", none, false, none⟩ "bob"
        = SubmitOutcome.started true)) :=
  ⟨by decide,
   submit_alreadyRunning_iff true ⟨"generating_persona", 50, "m", none, false, none⟩
     "bob" (by decide)⟩

/-- **C6 (amended).** The generated output is accepted as the persona body
iff the extracted, stripped text reaches the 10-character minimum — hence
every accepted body is non-empty and above the minimum length — and a
rejected invocation makes the orchestrator fall back to the rule-based
persona.  No truncation-artifact check is performed. -/
theorem model_output_acceptance :
    (∀ t p : String, generate_with_timeout (GenOutcome.resp [some t]) = some p →
      p = extractPersona t ∧ 10 ≤ (pyStrip p).length ∧ pyStrip p ≠ "" ∧ p ≠ "") ∧
    (∀ t : String, (pyStrip (extractPersona t)).length < 10 →
      generate_with_timeout (GenOutcome.resp [some t]) = none) ∧
    (∀ (setEnum : List String → List String) (raw : GenOutcome) (u : String)
        (ps : List RPost) (cs : List RComment), generate_with_timeout raw = none →
      (generate_persona setEnum raw u ps cs).1 = create_fallback_persona setEnum u ps cs) := by
  have hdef : ∀ t : String, generate_with_timeout (GenOutcome.resp [some t]) =
      if (pyStrip (extractPersona t)).length < 10 then none else some (extractPersona t) :=
    fun t => rfl
  refine ⟨fun t p h => ?_, fun t h => ?_, fun setEnum raw u ps cs h => ?_⟩
  · rw [hdef] at h
    by_cases hl : (pyStrip (extractPersona t)).length < 10
    · rw [if_pos hl] at h
      exact absurd h (by simp)
    · rw [if_neg hl] at h
      injection h with h
      subst h
      refine ⟨rfl, by omega, fun he => ?_, fun he => ?_⟩
      · rw [he] at hl
        exact hl (by decide)
      · rw [he] at hl
        exact hl (by decide)
  · rw [hdef, if_pos h]
  · cases hg : generate_with_timeout raw with
    | none => simp [generate_persona, hg]
    | some p => rw [hg] at h; exact absurd h (by simp)

/-- Witness for `model_output_acceptance`: a concrete accepted output. -/
theorem model_output_acceptance_witness :
    ("a sufficiently long body text." : String) =
      extractPersona "PROFILE: a sufficiently long body text." ∧
    10 ≤ (pyStrip "a sufficiently long body text.").length ∧
    pyStrip "a sufficiently long body text." ≠ "" ∧
    ("a sufficiently long body text." : String) ≠ "" :=
  model_output_acceptance.1 "PROFILE: a sufficiently long body text."
    "a sufficiently long body text." (by decide)

/-- **C6 (counterexample to the claim as stated).** A concrete model output
with an obvious truncation artifact (it stops mid-sentence, without
terminal punctuation) that is nevertheless accepted as the persona body:
the acceptance check is length-only. -/
theorem accepts_truncated_output_cex :
    generate_with_timeout
        (GenOutcome.resp [some "PROFILE: The user seems to enjoy long discussions about ga"])
      = some "The user seems to enjoy long discussions about ga" ∧
    specTruncationArtifact "The user seems to enjoy long discussions about ga" = true := by
  exact ⟨by decide, by decide⟩

/-- **C8.** The overall tone summary is classified by strict greater-than
ratio tiers on the positive and negative counts — `positive > 2×negative`
gives the top positive tier, `positive > 1.2×negative` the next, with
symmetric negative tiers, else balanced — and in particular a sample whose
positive:negative ratio is exactly 2.0 falls in the lower (generally
positive) tier, not the top tier. -/
theorem tone_tier_classification :
    (∀ p n : Nat, sentimentSummaryBase p n =
      if (p : ℚ) > (n : ℚ) * 2 then
        "Consistently positive and optimistic in communication"
      else if (p : ℚ) > (n : ℚ) * (6/5) then
        "Generally positive in communication with occasional criticism"
      else if (n : ℚ) > (p : ℚ) * 2 then
        "Predominantly critical or negative in commentary"
      else if (n : ℚ) > (p : ℚ) * (6/5) then
        "Tends toward critical perspectives with some positive elements"
      else "Balanced emotional expression in comments") ∧
    (∀ n : Nat, 0 < n →
      sentimentSummaryBase (2 * n) n =
        "Generally positive in communication with occasional criticism") := by
  have key : ∀ p n : Nat,
      (((p : ℚ) > (n : ℚ) * 2) ↔ 2 * n < p) ∧
      (((p : ℚ) > (n : ℚ) * (6/5)) ↔ 6 * n < 5 * p) := by
    intro p n
    constructor
    · rw [gt_iff_lt, show ((n : ℚ) * 2) = ((2 * n : ℕ) : ℚ) by push_cast; ring]
      exact Nat.cast_lt
    · rw [gt_iff_lt, show ((n : ℚ) * (6/5)) = ((6 * n : ℕ) : ℚ) / 5 by push_cast; ring,
        div_lt_iff₀ (by norm_num : (0:ℚ) < 5),
        show ((p : ℚ) * 5) = ((5 * p : ℕ) : ℚ) by push_cast; ring]
      exact Nat.cast_lt
  have main : ∀ p n : Nat, sentimentSummaryBase p n =
      if (p : ℚ) > (n : ℚ) * 2 then
        "Consistently positive and optimistic in communication"
      else if (p : ℚ) > (n : ℚ) * (6/5) then
        "Generally positive in communication with occasional criticism"
      else if (n : ℚ) > (p : ℚ) * 2 then
        "Predominantly critical or negative in commentary"
      else if (n : ℚ) > (p : ℚ) * (6/5) then
        "Tends toward critical perspectives with some positive elements"
      else "Balanced emotional expression in comments" := by
    intro p n
    simp only [(key p n).1, (key p n).2, (key n p).1, (key n p).2, sentimentSummaryBase]
  refine ⟨main, fun n hn => ?_⟩
  rw [main]
  have hn' : (0 : ℚ) < (n : ℚ) := by exact_mod_cast hn
  rw [if_neg (by push_cast; intro hc; linarith),
    if_pos (by push_cast; linarith)]

/-- Witness for `tone_tier_classification`: positive:negative = 4:2. -/
theorem tone_tier_classification_witness :
    0 < 2 ∧ sentimentSummaryBase (2 * 2) 2 =
      "Generally positive in communication with occasional criticism" :=
  ⟨by decide, tone_tier_classification.2 2 (by decide)⟩

set_option maxRecDepth 4000 in
/-- **C9.** For 5 posts in community `gaming` with scores 1..5 and no
comments: interest extraction yields "Video games and gaming culture" via
the fixed table (first match wins), and the average post score of 3 falls
in the moderate engagement tier.  In general, the post-to-total-activity
ratio classifies creator/balanced/commenter at the strict thresholds 0.7
and 0.3. -/
theorem gaming_example_classification :
    get_top_subreddits gamingPosts [] = ["gaming"] ∧
    extract_interests (get_top_subreddits gamingPosts []) =
      "\n- Video games and gaming culture" ∧
    avg_post_score (analyze_posting_patterns gamingPosts []) = 3 ∧
    describe_engagement_patterns (analyze_posting_patterns gamingPosts []) =
      "Active user with 5 total interactions. Content creator - prefers making posts over commenting. Posts receive moderate community engagement. Comments receive limited appreciation." ∧
    (∀ (ps : List RPost) (cs : List RComment), ps.length + cs.length ≠ 0 →
      ((activityTypeOf (analyze_posting_patterns ps cs) =
          "Content creator - prefers making posts over commenting" ↔
        (7 : ℚ)/10 < (ps.length : ℚ) / ((ps.length : ℚ) + (cs.length : ℚ))) ∧
       (activityTypeOf (analyze_posting_patterns ps cs) =
          "Balanced user - mix of posts and comments" ↔
        (¬ (7 : ℚ)/10 < (ps.length : ℚ) / ((ps.length : ℚ) + (cs.length : ℚ)) ∧
         (3 : ℚ)/10 < (ps.length : ℚ) / ((ps.length : ℚ) + (cs.length : ℚ)))) ∧
       (activityTypeOf (analyze_posting_patterns ps cs) =
          "Commenter - prefers engaging in discussions" ↔
        (ps.length : ℚ) / ((ps.length : ℚ) + (cs.length : ℚ)) ≤ (3 : ℚ)/10))) := by
  refine ⟨by decide, by decide, ?_, by decide, ?_⟩
  · norm_num [analyze_posting_patterns, gamingPosts, avg_post_score]
  · intro ps cs h
    have hs : (0 : ℚ) < (ps.length : ℚ) + (cs.length : ℚ) := by
      have : 0 < ps.length + cs.length := Nat.pos_of_ne_zero h
      exact_mod_cast this
    have e7 : ((7 : ℚ)/10 < (ps.length : ℚ) / ((ps.length : ℚ) + (cs.length : ℚ))) ↔
        7 * (ps.length + cs.length) < 10 * ps.length := by
      rw [div_lt_div_iff₀ (by norm_num : (0:ℚ) < 10) hs,
        show ((7 : ℚ) * ((ps.length : ℚ) + (cs.length : ℚ)))
          = ((7 * (ps.length + cs.length) : ℕ) : ℚ) by push_cast; ring,
        show ((ps.length : ℚ) * 10) = ((10 * ps.length : ℕ) : ℚ) by push_cast; ring]
      exact Nat.cast_lt
    have e3 : ((3 : ℚ)/10 < (ps.length : ℚ) / ((ps.length : ℚ) + (cs.length : ℚ))) ↔
        3 * (ps.length + cs.length) < 10 * ps.length := by
      rw [div_lt_div_iff₀ (by norm_num : (0:ℚ) < 10) hs,
        show ((3 : ℚ) * ((ps.length : ℚ) + (cs.length : ℚ)))
          = ((3 * (ps.length + cs.length) : ℕ) : ℚ) by push_cast; ring,
        show ((ps.length : ℚ) * 10) = ((10 * ps.length : ℕ) : ℚ) by push_cast; ring]
      exact Nat.cast_lt
    have htype : activityTypeOf (analyze_posting_patterns ps cs) =
        (if 10 * ps.length > 7 * (ps.length + cs.length) then
          "Content creator - prefers making posts over commenting"
        else if 10 * ps.length > 3 * (ps.length + cs.length) then
          "Balanced user - mix of posts and comments"
        else "Commenter - prefers engaging in discussions") := by
      simp only [analyze_posting_patterns, if_neg h, activityTypeOf]
    rw [htype]
    by_cases h7 : 10 * ps.length > 7 * (ps.length + cs.length)
    · rw [if_pos h7]
      refine ⟨iff_of_true rfl (e7.mpr h7), iff_of_false (by decide) ?_,
        iff_of_false (by decide) ?_⟩
      · exact fun hc => hc.1 (e7.mpr h7)
      · intro hc
        have h3 : 3 * (ps.length + cs.length) < 10 * ps.length := by omega
        exact absurd hc (not_le.mpr (e3.mpr h3))
    · rw [if_neg h7]
      by_cases h3 : 10 * ps.length > 3 * (ps.length + cs.length)
      · rw [if_pos h3]
        refine ⟨iff_of_false (by decide) (fun hc => h7 (e7.mp hc)),
          iff_of_true rfl ⟨fun hc => h7 (e7.mp hc), e3.mpr h3⟩,
          iff_of_false (by decide) (not_le.mpr (e3.mpr h3))⟩
      · rw [if_neg h3]
        refine ⟨iff_of_false (by decide) (fun hc => h7 (e7.mp hc)),
          iff_of_false (by decide) (fun hc => h3 (e3.mp hc.2)),
          iff_of_true rfl (le_of_not_lt (fun hc => h3 (e3.mp hc)))⟩

/-- Witness for `gaming_example_classification`: the worked example's 5
posts and 0 comments. -/
theorem gaming_example_classification_witness :
    gamingPosts.length + ([] : List RComment).length ≠ 0 ∧
    ((activityTypeOf (analyze_posting_patterns gamingPosts []) =
        "Content creator - prefers making posts over commenting" ↔
      (7 : ℚ)/10 < (gamingPosts.length : ℚ) /
        ((gamingPosts.length : ℚ) + (([] : List RComment).length : ℚ))) ∧
     (activityTypeOf (analyze_posting_patterns gamingPosts []) =
        "Balanced user - mix of posts and comments" ↔
      (¬ (7 : ℚ)/10 < (gamingPosts.length : ℚ) /
          ((gamingPosts.length : ℚ) + (([] : List RComment).length : ℚ)) ∧
       (3 : ℚ)/10 < (gamingPosts.length : ℚ) /
          ((gamingPosts.length : ℚ) + (([] : List RComment).length : ℚ)))) ∧
     (activityTypeOf (analyze_posting_patterns gamingPosts []) =
        "Commenter - prefers engaging in discussions" ↔
      (gamingPosts.length : ℚ) /
          ((gamingPosts.length : ℚ) + (([] : List RComment).length : ℚ)) ≤ (3 : ℚ)/10)) :=
  ⟨by decide, gaming_example_classification.2.2.2.2 gamingPosts [] (by decide)⟩

/-- **C7 (amended).** On a successful run (model already loaded, data
present, persistence succeeding, no scraper batch flushes), the sequence of
distinct stages reported to the status record is exactly
`initializing, fetching_posts, fetching_comments, preparing_data,
generating_persona, analyzing_sentiment, preparing_data, generating_persona,
saving_results, saving, saving_results, finalizing` — regardless of whether
the model output is accepted or the fallback is used.  The stages
`preparing_data`, `generating_persona` and `saving_results` are each
revisited, and `analyzing_sentiment` is reported after `generating_persona`
has begun, so the reported stage sequence is not monotonic in the pipeline
order. -/
theorem stage_trace_success_path (p0 : RPost) (ps : List RPost)
    (cs : List RComment) (raw : GenOutcome) (f u : String)
    (setEnum : List String → List String) (np nc : Nat) :
    collapseConsec
      ((generate_full_persona
          ⟨true, [], stdScrapeTrace u np nc, Except.ok (p0 :: ps, cs), raw, Except.ok f⟩
          setEnum u).1.map (fun x => x.1)) =
    ["initializing", "fetching_posts", "fetching_comments", "preparing_data",
     "generating_persona", "analyzing_sentiment", "preparing_data",
     "generating_persona", "saving_results", "saving", "saving_results",
     "finalizing"] := by
  have hgtr : ((generate_persona setEnum raw u (p0 :: ps) cs).2).map (fun x => x.1)
      = ["analyzing_sentiment", "analyzing_sentiment", "preparing_data",
         "generating_persona", "generating_persona", "generating_persona",
         "generating_persona"] := by
    cases hg : generate_with_timeout raw with
    | none => simp [generate_persona, hg]
    | some p => simp [generate_persona, hg]
  simp only [generate_full_persona, stdScrapeTrace, List.isEmpty_cons, Bool.false_and,
    Bool.false_eq_true, if_false, if_true, List.map_append, hgtr, List.map_cons,
    List.map_nil]
  simp [collapseConsec]

set_option maxRecDepth 10000 in
/-- **C7 (counterexample to the claim as stated).** In a concrete successful
job the sequence of distinct reported stages contains repetitions
(`preparing_data`, `generating_persona` and `saving_results` are each
visited twice), so stages are revisited and reported out of pipeline
order within a single job that never takes the terminal reset path. -/
theorem stage_trace_not_monotonic_cex :
    ¬ List.Nodup (collapseConsec
      ((generate_full_persona
          ⟨true, [], stdScrapeTrace "u" 1 1,
            Except.ok ([⟨"t", "gaming", 3⟩], [⟨"good love this game a lot", "gaming", 2⟩]),
            GenOutcome.resp [some "PROFILE: a fine persona body here."],
            Except.ok "o.txt"⟩
          (fun l => l) "u").1.map (fun x => x.1))) := by
  decide

/-- **C3 (amended).** The analysis engine is deterministic up to the
runtime's enumeration order of the found-word sets: for any two valid set
enumerations, every component of the sentiment result other than the
`positive_words`/`negative_words` lists is identical, those two lists agree
up to permutation, and whenever the two enumerations order the found lists
identically the fallback persona text is byte-identical as well.  (The
lists themselves — and the persona line printing the first five positive
words — depend on the enumeration order, which varies across runs with the
string hash seed.) -/
theorem analysis_deterministic_up_to_set_order
    (e1 e2 : List String → List String) (h1 : IsSetEnum e1) (h2 : IsSetEnum e2)
    (u : String) (ps : List RPost) (cs : List RComment) :
    eraseFoundWords (analyze_sentiment e1 cs) = eraseFoundWords (analyze_sentiment e2 cs) ∧
    (positiveWordsOf (analyze_sentiment e1 cs)).Perm
      (positiveWordsOf (analyze_sentiment e2 cs)) ∧
    (negativeWordsOf (analyze_sentiment e1 cs)).Perm
      (negativeWordsOf (analyze_sentiment e2 cs)) ∧
    (e1 (foundPositiveIn cs) = e2 (foundPositiveIn cs) →
     e1 (foundNegativeIn cs) = e2 (foundNegativeIn cs) →
     (create_fallback_persona e1 u ps cs).1 = (create_fallback_persona e2 u ps cs).1) := by
  have hsent : ∀ hp : e1 (foundPositiveIn cs) = e2 (foundPositiveIn cs),
      ∀ hn : e1 (foundNegativeIn cs) = e2 (foundNegativeIn cs),
      analyze_sentiment e1 cs = analyze_sentiment e2 cs := by
    intro hp hn
    cases cs with
    | nil => rfl
    | cons a l =>
      unfold foundPositiveIn at hp
      unfold foundNegativeIn at hn
      simp only [analyze_sentiment]
      rw [hp, hn]
  refine ⟨?_, ?_, ?_, fun hp hn => ?_⟩
  · cases cs with
    | nil => rfl
    | cons a l => rfl
  · cases cs with
    | nil => exact List.Perm.refl _
    | cons a l =>
      exact (h1 _).trans (h2 _).symm
  · cases cs with
    | nil => exact List.Perm.refl _
    | cons a l =>
      exact (h1 _).trans (h2 _).symm
  · unfold create_fallback_persona
    rw [hsent hp hn]

/-- Witness for `analysis_deterministic_up_to_set_order`: the identity and
reversal enumerations over a one-comment input. -/
theorem analysis_deterministic_up_to_set_order_witness :
    eraseFoundWords (analyze_sentiment (fun l => l) [⟨"good love", "gaming", 1⟩]) =
      eraseFoundWords (analyze_sentiment (fun l => l.reverse) [⟨"good love", "gaming", 1⟩]) ∧
    (positiveWordsOf (analyze_sentiment (fun l => l) [⟨"good love", "gaming", 1⟩])).Perm
      (positiveWordsOf (analyze_sentiment (fun l => l.reverse) [⟨"good love", "gaming", 1⟩])) ∧
    (negativeWordsOf (analyze_sentiment (fun l => l) [⟨"good love", "gaming", 1⟩])).Perm
      (negativeWordsOf (analyze_sentiment (fun l => l.reverse) [⟨"good love", "gaming", 1⟩])) ∧
    ((fun l => l) (foundPositiveIn [⟨"good love", "gaming", 1⟩]) =
        (fun l : List String => l.reverse) (foundPositiveIn [⟨"good love", "gaming", 1⟩]) →
     (fun l => l) (foundNegativeIn [⟨"good love", "gaming", 1⟩]) =
        (fun l : List String => l.reverse) (foundNegativeIn [⟨"good love", "gaming", 1⟩]) →
     (create_fallback_persona (fun l => l) "u" [] [⟨"good love", "gaming", 1⟩]).1 =
       (create_fallback_persona (fun l => l.reverse) "u" [] [⟨"good love", "gaming", 1⟩]).1) :=
  analysis_deterministic_up_to_set_order (fun l => l) (fun l => l.reverse)
    (fun l => List.Perm.refl l) (fun l => l.reverse_perm) "u" []
    [⟨"good love", "gaming", 1⟩]

set_option maxRecDepth 10000 in
/-- **C3 (counterexample to the claim as stated).** Two valid runtime set
enumerations on the same single-comment input yield different
`positive_words` data and different fallback persona bytes (the "Frequently
uses positive words" line), so repeated runs are not byte-identical: the
output order of `list(found_positive)` varies with the per-process string
hash seed. -/
theorem analysis_set_order_cex :
    IsSetEnum (fun l => l) ∧ IsSetEnum (fun l => l.reverse) ∧
    positiveWordsOf (analyze_sentiment (fun l => l) [⟨"good love", "gaming", 1⟩]) ≠
      positiveWordsOf (analyze_sentiment (fun l => l.reverse) [⟨"good love", "gaming", 1⟩]) ∧
    (create_fallback_persona (fun l => l) "u" [] [⟨"good love", "gaming", 1⟩]).1 ≠
      (create_fallback_persona (fun l => l.reverse) "u" [] [⟨"good love", "gaming", 1⟩]).1 :=
  ⟨fun l => List.Perm.refl l, fun l => l.reverse_perm, by decide, by decide⟩
